import Mathlib

/-!
Verification of the layered cloud-storage configuration core of the
comfyui-cloud-storage plugin: the profile resolver (src/profile.py) and the
provider preset registry / endpoint derivation (src/providers.py), embedded
shallowly as pure Lean functions.

Conventions of the embedding:

* A Python string field that may be missing is modelled as a `String` where
  `""` means absent/unset, exactly matching the source, which reads
  `os.environ.get(name, "")` and filters with Python truthiness (`if v`).
* The process environment snapshot and a stored named profile are both
  partial configurations: any subset of the eight recognized keys, modelled
  by `ConfigOverlay` with `""` for the keys that are not set.
* The named profile store (the `profiles` object of profiles.json) is an
  association list from profile name to its stored partial configuration.
* `dict.update({k: v for k, v in src.items() if v})` on the eight-key config
  dict is `applyOverlay`.
* `validate_config` raises `ValueError`; the embedding returns
  `Except String Unit` carrying the exact message.
* `create_s3_client` is embedded up to the keyword arguments it passes to the
  storage library (`S3ClientKwargs`); the opaque client object itself is an
  external collaborator and not modelled.
-/

/-- The resolved configuration dict built by resolve_profile
(src/profile.py lines 86-94): all eight keys are always present. -/
structure Config where
  provider : String
  access_key : String
  secret_key : String
  region : String
  bucket : String
  endpoint_url : String
  account_id : String
  path_prefix : String
  deriving DecidableEq, Repr

/-- A partial configuration: an environment snapshot (the value of each
COMFY_S3_* variable, `""` meaning unset) or a stored named profile (any
subset of the eight keys; `""` models an absent key). -/
structure ConfigOverlay where
  provider : String := ""
  access_key : String := ""
  secret_key : String := ""
  region : String := ""
  bucket : String := ""
  endpoint_url : String := ""
  account_id : String := ""
  path_prefix : String := ""
  deriving DecidableEq, Repr

/-- The overlay with no keys set: the empty dict. -/
def emptyOverlay : ConfigOverlay := {}

/-- `config.update({k: v for k, v in src.items() if v})` (src/profile.py
lines 96 and 105): each non-empty field of the overlay replaces the
corresponding field of the config; empty fields leave it unchanged. -/
def applyOverlay (c : Config) (p : ConfigOverlay) : Config where
  provider := if p.provider = "" then c.provider else p.provider
  access_key := if p.access_key = "" then c.access_key else p.access_key
  secret_key := if p.secret_key = "" then c.secret_key else p.secret_key
  region := if p.region = "" then c.region else p.region
  bucket := if p.bucket = "" then c.bucket else p.bucket
  endpoint_url := if p.endpoint_url = "" then c.endpoint_url else p.endpoint_url
  account_id := if p.account_id = "" then c.account_id else p.account_id
  path_prefix :=
    if ConfigOverlay.path_prefix p = "" then Config.path_prefix c
    else ConfigOverlay.path_prefix p

/-- The built-in defaults (src/profile.py lines 86-95): every field empty
except provider, which starts as "AWS S3". -/
def initialConfig : Config where
  provider := "AWS S3"
  access_key := ""
  secret_key := ""
  region := ""
  bucket := ""
  endpoint_url := ""
  account_id := ""
  path_prefix := ""

/-- Layer 1 of resolve_profile (src/profile.py line 96): overlay the
non-empty environment variables onto the defaults. -/
def configAfterEnv (env : ConfigOverlay) : Config :=
  applyOverlay initialConfig env

/-- Layers 1-2 of resolve_profile (src/profile.py lines 98-105): if the
selector is non-empty and not the "(env vars)" sentinel, look the name up in
the store; a missing name (or an empty stored profile, which Python's
`if not named` treats identically) only warns and leaves the config
unchanged; a found profile is overlaid field-by-field. -/
def configAfterProfile (env : ConfigOverlay)
    (profiles : List (String × ConfigOverlay)) (profile_name : String) : Config :=
  let config := configAfterEnv env
  if profile_name ≠ "" ∧ profile_name ≠ "(env vars)" then
    let named := (profiles.lookup profile_name).getD emptyOverlay
    if named = emptyOverlay then config else applyOverlay config named
  else config

/-- Layer 3 of resolve_profile (src/profile.py lines 107-113): per-node
widget overrides, applied sequentially; provider only when non-empty and not
the "(from profile)" sentinel, bucket and path-prefix only when non-empty. -/
def applyOverrides (c : Config)
    (provider_override bucket_override path_prefix_override : String) : Config :=
  let c1 :=
    if provider_override ≠ "" ∧ provider_override ≠ "(from profile)" then
      { c with provider := provider_override }
    else c
  let c2 := if bucket_override ≠ "" then { c1 with bucket := bucket_override } else c1
  if path_prefix_override ≠ "" then { c2 with path_prefix := path_prefix_override } else c2

/-- resolve_profile (src/profile.py lines 71-115), as a pure function of the
environment snapshot and the loaded profile store. -/
def resolve_profile (env : ConfigOverlay) (profiles : List (String × ConfigOverlay))
    (profile_name provider_override bucket_override path_prefix_override : String) :
    Config :=
  applyOverrides (configAfterProfile env profiles profile_name)
    provider_override bucket_override path_prefix_override

/-- The ValueError message for a missing access key (src/profile.py lines
126-130); the profiles path computed by _get_profiles_path is a parameter. -/
def accessKeyErrorMsg (profilesPath : String) : String :=
  "Cloud storage access key not configured. Set COMFY_S3_ACCESS_KEY env var, create a profile in "
    ++ profilesPath ++ ", or connect a CloudStorageProfile node."

/-- The ValueError message for a missing secret key (src/profile.py lines
132-135). -/
def secretKeyErrorMsg : String :=
  "Cloud storage secret key not configured. Set COMFY_S3_SECRET_KEY env var or configure a profile."

/-- The ValueError message for a missing bucket (src/profile.py lines
137-140). -/
def bucketErrorMsg : String :=
  "Cloud storage bucket not configured. Set COMFY_S3_BUCKET env var or configure a profile."

/-- validate_config (src/profile.py lines 123-140): checks access_key, then
secret_key, then bucket, raising (here: returning `Except.error`) the first
failure's message. -/
def validate_config (profilesPath : String) (config : Config) : Except String Unit :=
  if config.access_key = "" then Except.error (accessKeyErrorMsg profilesPath)
  else if config.secret_key = "" then Except.error secretKeyErrorMsg
  else if config.bucket = "" then Except.error bucketErrorMsg
  else Except.ok ()

/-- ProviderPreset (src/providers.py lines 11-15). -/
structure ProviderPreset where
  endpoint_template : String
  default_region : String := "us-east-1"
  force_path_style : Bool := false
  deriving DecidableEq, Repr

/-- The PROVIDERS registry (src/providers.py lines 18-52), in source order. -/
def PROVIDERS : List (String × ProviderPreset) :=
  [("AWS S3", { endpoint_template := "", default_region := "us-east-1" }),
   ("Backblaze B2", { endpoint_template := "https://s3.{region}.backblazeb2.com",
                      default_region := "us-west-004" }),
   ("Cloudflare R2", { endpoint_template := "https://{account_id}.r2.cloudflarestorage.com",
                       default_region := "auto" }),
   ("MinIO", { endpoint_template := "http://localhost:9000",
               default_region := "us-east-1", force_path_style := true }),
   ("Wasabi", { endpoint_template := "https://s3.{region}.wasabisys.com",
                default_region := "us-east-1" }),
   ("DigitalOcean Spaces", { endpoint_template := "https://{region}.digitaloceanspaces.com",
                             default_region := "nyc3" }),
   ("GCS (S3 interop)", { endpoint_template := "https://storage.googleapis.com",
                          default_region := "auto" }),
   ("Custom", { endpoint_template := "", default_region := "" })]

/-- The "Custom" entry of the registry, written out; that it really is the
registry's "Custom" entry is proved in the C8 theorem. -/
def customFallback : ProviderPreset :=
  { endpoint_template := "", default_region := "" }

/-- `PROVIDERS.get(provider, PROVIDERS["Custom"])` (src/providers.py line
72): exact-name lookup with fallback to the Custom preset; never fails. -/
def lookupProvider (provider : String) : ProviderPreset :=
  (PROVIDERS.lookup provider).getD customFallback

/-- Python's `template.format(region=..., account_id=...)` for templates over
the two placeholders: every occurrence of "{region}" and "{account_id}" is
replaced by the respective value; substituted values are never re-scanned. -/
def formatTemplate (template region account_id : String) : String :=
  String.intercalate region
    ((template.splitOn "{region}").map
      (fun seg => String.intercalate account_id (seg.splitOn "{account_id}")))

/-- The endpoint resolution of create_s3_client (src/providers.py lines
73-84): explicit endpoint wins; else a non-empty template is filled with the
effective region (caller's region, or the preset default when empty) and the
account id; else empty, meaning the library default. -/
def deriveEndpoint (preset : ProviderPreset)
    (endpoint_url region account_id : String) : String :=
  let effective_region := if region = "" then preset.default_region else region
  if endpoint_url ≠ "" then endpoint_url
  else if preset.endpoint_template ≠ "" then
    formatTemplate preset.endpoint_template effective_region account_id
  else ""

/-- The keyword arguments create_s3_client passes to the storage library
(src/providers.py lines 86-98); `endpoint_url = none` models the key being
omitted from kwargs. -/
structure S3ClientKwargs where
  aws_access_key_id : String
  aws_secret_access_key : String
  region_name : String
  addressing_style : String
  endpoint_url : Option String
  deriving DecidableEq, Repr

/-- create_s3_client (src/providers.py lines 57-100), up to the kwargs of
the library call. -/
def create_s3_client (provider access_key secret_key region endpoint_url account_id :
    String) : S3ClientKwargs :=
  let preset := lookupProvider provider
  let effective_region := if region = "" then preset.default_region else region
  let effective_endpoint := deriveEndpoint preset endpoint_url region account_id
  { aws_access_key_id := access_key
    aws_secret_access_key := secret_key
    region_name := effective_region
    addressing_style := if preset.force_path_style then "path" else "auto"
    endpoint_url := if effective_endpoint = "" then none else some effective_endpoint }

/-- true when the first list occurs at the head of the second. -/
def leadingMatch : List Char → List Char → Bool
  | [], _ => true
  | _ :: _, [] => false
  | a :: as, b :: bs => a == b && leadingMatch as bs

/-- true when the first list occurs contiguously anywhere in the second. -/
def occursIn (needle : List Char) : List Char → Bool
  | [] => leadingMatch needle []
  | b :: bs => leadingMatch needle (b :: bs) || occursIn needle bs

/-- a message mentions a phrase when the phrase occurs in it verbatim. -/
def mentions (message phrase : String) : Bool :=
  occursIn phrase.toList message.toList

/-- Fixture: an environment snapshot setting the three credentials, as in
the repository's own resolver tests. -/
def env0 : ConfigOverlay :=
  { access_key := "envkey", secret_key := "envsecret", bucket := "envbucket" }

/-- Fixture: a stored profile overriding bucket and region only. -/
def prof0 : ConfigOverlay :=
  { bucket := "profilebucket", region := "eu-central-003" }

/-- Fixture: a one-profile store. -/
def store0 : List (String × ConfigOverlay) := [("production", prof0)]

/-- Claim C7: exactly one preset in the registry forces path-style
addressing — the provider with the fixed localhost-style endpoint — and
every other preset has force_path_style false. -/
theorem providers_unique_path_style :
    (PROVIDERS.filter (fun kv => kv.2.force_path_style)).map Prod.fst = ["MinIO"] ∧
    (PROVIDERS.lookup "MinIO").map ProviderPreset.endpoint_template =
      some "http://localhost:9000" := by
  decide

/-- Claim C8: provider lookup never fails: an exact match returns that
entry's preset, any other name returns the Custom fallback, whose template,
default region are empty and whose force_path_style is false; and the
fallback is exactly the registry's own "Custom" entry. -/
theorem lookupProvider_total (n : String) :
    (∀ p, PROVIDERS.lookup n = some p → lookupProvider n = p) ∧
    (PROVIDERS.lookup n = none → lookupProvider n = customFallback) ∧
    customFallback.endpoint_template = "" ∧
    customFallback.default_region = "" ∧
    customFallback.force_path_style = false ∧
    PROVIDERS.lookup "Custom" = some customFallback := by
  refine ⟨?_, ?_, rfl, rfl, rfl, by decide⟩
  · intro p hp
    simp [lookupProvider, hp]
  · intro hn
    simp [lookupProvider, hn]

/-- Witness for C8: a matching name returns its stored preset; an unknown
name returns the Custom fallback. -/
theorem lookupProvider_total_witness :
    lookupProvider "Backblaze B2" =
      { endpoint_template := "https://s3.{region}.backblazeb2.com",
        default_region := "us-west-004", force_path_style := false } ∧
    lookupProvider "Unknown Provider" = customFallback :=
  ⟨(lookupProvider_total "Backblaze B2").1 _ (by decide),
   (lookupProvider_total "Unknown Provider").2.1 (by decide)⟩

/-- Claim C2: endpoint derivation: a non-empty explicit endpoint wins
verbatim over any preset; otherwise a non-empty preset template has the
effective region (the caller's region when non-empty, else the preset
default region) and the account id substituted into its placeholders;
otherwise the derived endpoint is the empty string. -/
theorem deriveEndpoint_cases (preset : ProviderPreset)
    (endpoint_url region account_id : String) :
    deriveEndpoint preset endpoint_url region account_id =
      if endpoint_url ≠ "" then endpoint_url
      else if preset.endpoint_template ≠ "" then
        formatTemplate preset.endpoint_template
          (if region ≠ "" then region else preset.default_region) account_id
      else "" := by
  unfold deriveEndpoint
  by_cases h : region = "" <;> simp [h]

/-- Claim C9: the empty selector skips the named-profile layer entirely and
resolves exactly as the "(env vars)" sentinel does, for any overrides. -/
theorem resolve_profile_empty_name (env : ConfigOverlay)
    (profiles : List (String × ConfigOverlay)) (po bo ppo : String) :
    resolve_profile env profiles "" po bo ppo =
      resolve_profile env profiles "(env vars)" po bo ppo := by
  unfold resolve_profile configAfterProfile
  simp

/-- Claim C3: validation succeeds exactly when access_key, secret_key, and
bucket are all non-empty, regardless of every other field; when several are
empty the error raised is for the first of them in the order access_key,
secret_key, bucket. -/
theorem validate_config_cases (profilesPath : String) (c : Config) :
    (validate_config profilesPath c = Except.ok () ↔
      (c.access_key ≠ "" ∧ c.secret_key ≠ "" ∧ c.bucket ≠ "")) ∧
    (c.access_key = "" →
      validate_config profilesPath c = Except.error (accessKeyErrorMsg profilesPath)) ∧
    (c.access_key ≠ "" → c.secret_key = "" →
      validate_config profilesPath c = Except.error secretKeyErrorMsg) ∧
    (c.access_key ≠ "" → c.secret_key ≠ "" → c.bucket = "" →
      validate_config profilesPath c = Except.error bucketErrorMsg) := by
  unfold validate_config
  by_cases h1 : c.access_key = "" <;> by_cases h2 : c.secret_key = "" <;>
    by_cases h3 : c.bucket = "" <;> simp [h1, h2, h3]

/-- Witness for C3: a config with a non-empty access key but empty secret
key fails with the secret-key message even though the bucket is also set. -/
theorem validate_config_cases_witness :
    validate_config "/tmp/profiles.json"
      { provider := "AWS S3", access_key := "k", secret_key := "", region := "",
        bucket := "b", endpoint_url := "", account_id := "", path_prefix := "" } =
      Except.error secretKeyErrorMsg :=
  (validate_config_cases "/tmp/profiles.json" _).2.2.1 (by decide) rfl

/-- Counterexample to claim C4 as stated: the secret-key message names the
missing field and mentions the environment variable and the profile, but it
nowhere mentions the per-call input (the CloudStorageProfile node named by
the access-key message) — contradicting the claim that every one of the
three messages mentions all three supply routes. -/
theorem validate_messages_counterexample :
    mentions secretKeyErrorMsg "secret key" = true ∧
    mentions secretKeyErrorMsg "COMFY_S3_SECRET_KEY" = true ∧
    mentions secretKeyErrorMsg "profile" = true ∧
    mentions secretKeyErrorMsg "node" = false ∧
    mentions secretKeyErrorMsg "CloudStorageProfile" = false ∧
    mentions secretKeyErrorMsg "connect" = false := by
  decide

/-- Claim C4 amended: every message names its missing field; the access-key
message mentions all three supply routes (environment variable, profile file
path, per-call CloudStorageProfile node), while the secret-key and bucket
messages mention only the environment variable and the profile, not the
per-call input. -/
theorem validate_messages_amended :
    (mentions (accessKeyErrorMsg "/p/profiles.json") "access key" = true ∧
     mentions (accessKeyErrorMsg "/p/profiles.json") "COMFY_S3_ACCESS_KEY env var" = true ∧
     mentions (accessKeyErrorMsg "/p/profiles.json") "profile in /p/profiles.json" = true ∧
     mentions (accessKeyErrorMsg "/p/profiles.json") "connect a CloudStorageProfile node" = true) ∧
    (mentions secretKeyErrorMsg "secret key" = true ∧
     mentions secretKeyErrorMsg "COMFY_S3_SECRET_KEY env var" = true ∧
     mentions secretKeyErrorMsg "profile" = true ∧
     mentions secretKeyErrorMsg "node" = false) ∧
    (mentions bucketErrorMsg "bucket" = true ∧
     mentions bucketErrorMsg "COMFY_S3_BUCKET env var" = true ∧
     mentions bucketErrorMsg "profile" = true ∧
     mentions bucketErrorMsg "node" = false) := by
  decide

/-- Claim C6: a selector that is neither the sentinel nor a key of the store
never fails and resolves exactly as the "(env vars)" sentinel does, with the
same overrides (the embedding is total, so resolution cannot raise). -/
theorem resolve_profile_missing (env : ConfigOverlay)
    (profiles : List (String × ConfigOverlay)) (name po bo ppo : String)
    (hsent : name ≠ "(env vars)") (hmiss : profiles.lookup name = none) :
    resolve_profile env profiles name po bo ppo =
      resolve_profile env profiles "(env vars)" po bo ppo := by
  unfold resolve_profile configAfterProfile
  by_cases hname : name = ""
  · simp [hname]
  · simp [hname, hsent, hmiss]

/-- Witness for C6: resolving an absent profile name over the one-profile
fixture store equals resolving with the sentinel. -/
theorem resolve_profile_missing_witness :
    resolve_profile env0 store0 "nonexistent" "" "mybucket" "" =
      resolve_profile env0 store0 "(env vars)" "" "mybucket" "" :=
  resolve_profile_missing env0 store0 "nonexistent" "" "mybucket" ""
    (by decide) (by decide)

/-- Claim C1: when the selector names a profile that exists in the store
(and no per-call overrides are given), every non-empty field of the stored
profile replaces the environment-derived field, and every field absent or
empty in the profile keeps the value produced by the environment layer. -/
theorem resolve_profile_overlay (env prof : ConfigOverlay)
    (profiles : List (String × ConfigOverlay)) (name : String)
    (hname : name ≠ "") (hsent : name ≠ "(env vars)")
    (hfound : profiles.lookup name = some prof) :
    ((resolve_profile env profiles name "" "" "").provider =
        if prof.provider = "" then (configAfterEnv env).provider else prof.provider) ∧
    ((resolve_profile env profiles name "" "" "").access_key =
        if prof.access_key = "" then (configAfterEnv env).access_key else prof.access_key) ∧
    ((resolve_profile env profiles name "" "" "").secret_key =
        if prof.secret_key = "" then (configAfterEnv env).secret_key else prof.secret_key) ∧
    ((resolve_profile env profiles name "" "" "").region =
        if prof.region = "" then (configAfterEnv env).region else prof.region) ∧
    ((resolve_profile env profiles name "" "" "").bucket =
        if prof.bucket = "" then (configAfterEnv env).bucket else prof.bucket) ∧
    ((resolve_profile env profiles name "" "" "").endpoint_url =
        if prof.endpoint_url = "" then (configAfterEnv env).endpoint_url else prof.endpoint_url) ∧
    ((resolve_profile env profiles name "" "" "").account_id =
        if prof.account_id = "" then (configAfterEnv env).account_id else prof.account_id) ∧
    ( Config.path_prefix (resolve_profile env profiles name "" "" "") =
        if ConfigOverlay.path_prefix prof = "" then
          Config.path_prefix (configAfterEnv env)
        else ConfigOverlay.path_prefix prof) := by
  unfold resolve_profile applyOverrides configAfterProfile
  by_cases hempty : prof = emptyOverlay
  · subst hempty
    simp [hname, hsent, hfound, emptyOverlay]
  · simp [hname, hsent, hfound, hempty, applyOverlay]

/-- Witness for C1: with env credentials and the fixture store, the found
"production" profile overrides bucket and region while the env access key
survives. -/
theorem resolve_profile_overlay_witness :
    (resolve_profile env0 store0 "production" "" "" "").bucket = "profilebucket" ∧
    (resolve_profile env0 store0 "production" "" "" "").region = "eu-central-003" ∧
    (resolve_profile env0 store0 "production" "" "" "").access_key = "envkey" := by
  have h := resolve_profile_overlay env0 prof0 store0 "production"
    (by decide) (by decide) (by decide)
  exact ⟨h.2.2.2.2.1, h.2.2.2.1, h.2.1⟩

/-- Claim C5: the per-call layer changes only the provider, bucket, and
path-prefix fields: provider only when the override is non-empty and not the
"(from profile)" sentinel (so the sentinel is never applied), bucket and
path-prefix only when non-empty; access_key, secret_key, region,
endpoint_url, and account_id are exactly the profile-layer values, whatever
the override arguments (and no credential override parameter exists in the
signature of resolve_profile). -/
theorem resolve_profile_overrides_frame (env : ConfigOverlay)
    (profiles : List (String × ConfigOverlay)) (name po bo ppo : String) :
    ((resolve_profile env profiles name po bo ppo).access_key =
        (configAfterProfile env profiles name).access_key) ∧
    ((resolve_profile env profiles name po bo ppo).secret_key =
        (configAfterProfile env profiles name).secret_key) ∧
    ((resolve_profile env profiles name po bo ppo).region =
        (configAfterProfile env profiles name).region) ∧
    ((resolve_profile env profiles name po bo ppo).endpoint_url =
        (configAfterProfile env profiles name).endpoint_url) ∧
    ((resolve_profile env profiles name po bo ppo).account_id =
        (configAfterProfile env profiles name).account_id) ∧
    ((resolve_profile env profiles name po bo ppo).provider =
        if po ≠ "" ∧ po ≠ "(from profile)" then po
        else (configAfterProfile env profiles name).provider) ∧
    ((resolve_profile env profiles name po bo ppo).bucket =
        if bo ≠ "" then bo else (configAfterProfile env profiles name).bucket) ∧
    ( Config.path_prefix (resolve_profile env profiles name po bo ppo) =
        if ppo ≠ "" then ppo
        else Config.path_prefix (configAfterProfile env profiles name)) := by
  unfold resolve_profile applyOverrides
  by_cases h1 : po ≠ "" ∧ po ≠ "(from profile)" <;> by_cases h2 : bo ≠ "" <;>
    by_cases h3 : ppo ≠ "" <;> simp [h1, h2, h3]

/-- Claim C10: the resolved configuration always carries all eight fields
(it inhabits `Config`, whose every field is total), and its provider field
is never the empty string: it defaults to "AWS S3" and each layer replaces
it only with a non-empty value. -/
theorem resolve_profile_provider_nonempty (env : ConfigOverlay)
    (profiles : List (String × ConfigOverlay)) (name po bo ppo : String) :
    (resolve_profile env profiles name po bo ppo).provider ≠ "" ∧
    (resolve_profile emptyOverlay profiles "(env vars)" "" "" "").provider = "AWS S3" := by
  have happ : ∀ (c : Config) (p : ConfigOverlay), c.provider ≠ "" →
      (applyOverlay c p).provider ≠ "" := by
    intro c p h
    show (if p.provider = "" then c.provider else p.provider) ≠ ""
    by_cases hp : p.provider = ""
    · simp [hp, h]
    · simp [hp]
  have henv : (configAfterEnv env).provider ≠ "" :=
    happ initialConfig env (by decide)
  have hafter : (configAfterProfile env profiles name).provider ≠ "" := by
    unfold configAfterProfile
    by_cases hc : name ≠ "" ∧ name ≠ "(env vars)"
    · by_cases hn : (profiles.lookup name).getD emptyOverlay = emptyOverlay
      · simpa [hc, hn] using henv
      · simpa [hc, hn] using happ _ _ henv
    · simpa [hc] using henv
  refine ⟨?_, rfl⟩
  unfold resolve_profile applyOverrides
  by_cases h1 : po ≠ "" ∧ po ≠ "(from profile)" <;> by_cases h2 : bo ≠ "" <;>
    by_cases h3 : ppo ≠ "" <;> simp [h1, h2, h3] <;> exact hafter
